import Mathlib

/-!
Verification development for the freqtrade user-strategy repository
(`ft_userdata/user_data/strategies/`).  Prices, ratios and fees are
modelled as exact rationals (ℚ); candle timestamps as integers (ℤ).
Each strategy's per-pair reference store (`custom_info` / `_cache`),
a pandas dataframe indexed by date, is modelled as an ascending list of
(timestamp, value) pairs wrapped in `Option` (`none` = the pair is
absent from the dictionary).  Python code that can raise is modelled
with `Except PyExc`; everything else is a total function, mirroring
the source line by line.
-/

/-- Python exceptions that the modelled code paths can raise. -/
inductive PyExc where
  | indexError
deriving DecidableEq

/-- Immutable entry facts of an open trade (`freqtrade.persistence.Trade`):
`open_rate`, `open_date_utc`, `fee_open`, `fee_close`. -/
structure Trade where
  open_rate : ℚ
  open_date : ℤ
  fee_open : ℚ
  fee_close : ℚ

/-- `FixedRiskRewardLossImproved._lookup_open_sl_abs` (and the identical
`FixedRR_MultiMode._lookup_open_sl_abs`): `hist = custom_info.get(pair)`;
`None`/empty ⇒ `None`; otherwise `hist.loc[:open_time].tail(1)` — the last
row whose timestamp is ≤ `open_time` — or `None` when that slice is empty. -/
def lookup_open_sl_abs (hist : Option (List (ℤ × ℚ))) (open_time : ℤ) : Option ℚ :=
  match hist with
  | none => none
  | some h =>
    if h.isEmpty then none
    else
      match (h.filter (fun r => r.1 ≤ open_time)).getLast? with
      | none => none
      | some r => some r.2

/-- `SwingEMA_RSI_ATR._lookup_init_sl` (and the identical
`EdgeBreakRetestV1._lookup_init_sl`); the `try/except` around `float(...)`
cannot fire in the rational model, the lookup itself is as above. -/
def lookup_init_sl (hist : Option (List (ℤ × ℚ))) (open_time : ℤ) : Option ℚ :=
  match hist with
  | none => none
  | some h =>
    if h.isEmpty then none
    else
      match (h.filter (fun r => r.1 ≤ open_time)).getLast? with
      | none => none
      | some r => some r.2

/-- `SwingHighToSkyV2._atr_at`: `None`/empty cache ⇒ `0.0`; otherwise
`df.index.get_loc(when, method="ffill")` — the position of the last
timestamp ≤ `when`, raising `KeyError` when `when` precedes every entry —
and on that exception fall back to `df['atr'].iloc[-1]` (the last stored
value) when `fallback_last`, else `0.0`. -/
def atr_at (cache : Option (List (ℤ × ℚ))) (when : ℤ) (fallback_last : Bool) : ℚ :=
  match cache with
  | none => 0
  | some df =>
    if df.isEmpty then 0
    else
      match (df.filter (fun r => r.1 ≤ when)).getLast? with
      | some r => r.2
      | none => if fallback_last then ((df.getLast?).map Prod.snd).getD 0 else 0

/-- `FixedRiskRewardLossImproved.stoploss = -0.18` (hard floor). -/
def FRRL_stoploss : ℚ := -18/100

/-- `FixedRiskRewardLossImproved.custom_stoploss` with the class constants
`rr_ratio = 2.0`, `break_even_R = 0.8`.  `current_time` and
`current_profit` are unused by the source body and omitted. -/
def FRRL_custom_stoploss (hist : Option (List (ℤ × ℚ))) (trade : Trade)
    (current_rate : ℚ) : ℚ :=
  match lookup_open_sl_abs hist trade.open_date with
  | none => FRRL_stoploss
  | some init_sl_abs =>
    if current_rate ≤ 0 then FRRL_stoploss
    else
      let risk_abs := max 0 (trade.open_rate - init_sl_abs)
      if risk_abs ≤ 0 then FRRL_stoploss
      else
        let tp_abs := trade.open_rate + 2 * risk_abs
        let be_abs := trade.open_rate * (1 + trade.fee_open + trade.fee_close)
        let be_trigger_abs := trade.open_rate + (8/10) * risk_abs
        let result := init_sl_abs / current_rate - 1
        let result := if be_trigger_abs ≤ current_rate
          then max result (be_abs / current_rate - 1) else result
        let result := if tp_abs ≤ current_rate
          then max result (tp_abs / current_rate - 1) else result
        max result FRRL_stoploss

/-- `SwingEMA_RSI_ATR.stoploss = -0.20` (hard floor). -/
def SwingEMA_stoploss : ℚ := -20/100

/-- `SwingEMA_RSI_ATR.custom_stoploss`; `rr` is the hyperoptable
`rr_ratio` knob (default 2.0); breakeven at 0.7R, gain lock of 0.5R at
1.5R, trailing at the take-profit line. -/
def SwingEMA_custom_stoploss (rr : ℚ) (hist : Option (List (ℤ × ℚ)))
    (trade : Trade) (current_rate : ℚ) : ℚ :=
  match lookup_init_sl hist trade.open_date with
  | none => SwingEMA_stoploss
  | some init_sl_abs =>
    if current_rate ≤ 0 then SwingEMA_stoploss
    else
      let risk_abs := max 0 (trade.open_rate - init_sl_abs)
      if risk_abs ≤ 0 then SwingEMA_stoploss
      else
        let tp_abs := trade.open_rate + rr * risk_abs
        let be_trigger := trade.open_rate + (7/10) * risk_abs
        let lock_trigger := trade.open_rate + (15/10) * risk_abs
        let result := init_sl_abs / current_rate - 1
        let result := if be_trigger ≤ current_rate
          then max result
            (trade.open_rate * (1 + trade.fee_open + trade.fee_close) / current_rate - 1)
          else result
        let result := if lock_trigger ≤ current_rate
          then max result ((trade.open_rate + (5/10) * risk_abs) / current_rate - 1)
          else result
        let result := if tp_abs ≤ current_rate
          then max result (tp_abs / current_rate - 1) else result
        max result SwingEMA_stoploss

/-- `FixedRR_MultiMode.custom_stoploss`; `rr`, `beR` and `floor` are the
`rr_ratio` / `break_even_R` / `stoploss` fields selected by `bot_start`
("mr": 1.2, 0.6, -0.08; "trend": 2.0, 0.8, -0.18). -/
def FRRMM_custom_stoploss (rr beR floor : ℚ) (hist : Option (List (ℤ × ℚ)))
    (trade : Trade) (current_rate : ℚ) : ℚ :=
  match lookup_open_sl_abs hist trade.open_date with
  | none => floor
  | some init_sl_abs =>
    if current_rate ≤ 0 then floor
    else
      let risk_abs := max 0 (trade.open_rate - init_sl_abs)
      if risk_abs ≤ 0 then floor
      else
        let tp_abs := trade.open_rate + rr * risk_abs
        let be_abs := trade.open_rate * (1 + trade.fee_open + trade.fee_close)
        let be_trigger_abs := trade.open_rate + beR * risk_abs
        let result := init_sl_abs / current_rate - 1
        let result := if be_trigger_abs ≤ current_rate
          then max result (be_abs / current_rate - 1) else result
        let result := if tp_abs ≤ current_rate
          then max result (tp_abs / current_rate - 1) else result
        max result floor

/-- `EdgeBreakRetestV1.stoploss = -0.20` (hard floor). -/
def EBR_stoploss : ℚ := -20/100

/-- `EdgeBreakRetestV1.custom_stoploss`; `rr` is the hyperoptable
`rr_ratio` (default 2.2); breakeven at 0.7R, lock of 0.4R at 1.5R,
trailing at the take-profit line. -/
def EBR_custom_stoploss (rr : ℚ) (hist : Option (List (ℤ × ℚ)))
    (trade : Trade) (current_rate : ℚ) : ℚ :=
  match lookup_init_sl hist trade.open_date with
  | none => EBR_stoploss
  | some init_sl_abs =>
    if current_rate ≤ 0 then EBR_stoploss
    else
      let risk_abs := max 0 (trade.open_rate - init_sl_abs)
      if risk_abs ≤ 0 then EBR_stoploss
      else
        let tp_abs := trade.open_rate + rr * risk_abs
        let be_trigger := trade.open_rate + (7/10) * risk_abs
        let lock_trigger := trade.open_rate + (15/10) * risk_abs
        let result := init_sl_abs / current_rate - 1
        let result := if be_trigger ≤ current_rate
          then max result
            (trade.open_rate * (1 + trade.fee_open + trade.fee_close) / current_rate - 1)
          else result
        let result := if lock_trigger ≤ current_rate
          then max result ((trade.open_rate + (4/10) * risk_abs) / current_rate - 1)
          else result
        let result := if tp_abs ≤ current_rate
          then max result (tp_abs / current_rate - 1) else result
        max result EBR_stoploss

/-- `SwingHighToSkyV2.stoploss = -0.34338` (hard floor). -/
def SHTS_stoploss : ℚ := -34338/100000

/-- `SwingHighToSkyV2.custom_stoploss` with the class constants
`atr_cap_mult = 1.8`, `max_atr_stop = 0.045`, `be_trigger = 0.015`,
`trail_trigger = 0.035`, `trail_atr_mult = 1.0`, `max_trail = 0.05`.
The cache rows carry the ATR column used by `_atr_at`.
`current_profit` is `Option`-valued (`None` skips the gated stages). -/
def SHTS_custom_stoploss (cache : Option (List (ℤ × ℚ))) (trade : Trade)
    (current_time : ℤ) (current_rate : ℚ) (current_profit : Option ℚ) : ℚ :=
  let atr_open := atr_at cache trade.open_date true
  let atr_cap :=
    if trade.open_rate ≤ 0 ∨ atr_open ≤ 0 then SHTS_stoploss
    else
      let atr_frac := atr_open / trade.open_rate * (18/10)
      let atr_frac := min atr_frac (45/1000);
      -(max (5/1000) atr_frac)
  let sl := atr_cap
  let sl :=
    match current_profit with
    | some p =>
      if (15/1000) ≤ p then
        let be_price := trade.open_rate * (1 + trade.fee_open + trade.fee_close)
        max sl (be_price / max current_rate (1/1000000000) - 1)
      else sl
    | none => sl
  let sl :=
    match current_profit with
    | some p =>
      if (35/1000) ≤ p then
        let atr_now := atr_at cache current_time true
        if 0 < atr_now ∧ 0 < current_rate then
          max sl (-(min (5/100) (max (4/1000) (atr_now / current_rate * 1))))
        else sl
      else sl
    | none => sl
  max sl SHTS_stoploss

/-- `SwingATRBreakevenV2`: ATR value at the greatest timestamp ≤ `t` via
`get_loc(..., method="ffill")`, falling back to `iloc[-1]` (the last
stored value) on the `KeyError` raised when `t` precedes every entry. -/
def SATR_getAtr (df : List (ℤ × ℚ)) (t : ℤ) : ℚ :=
  match (df.filter (fun r => r.1 ≤ t)).getLast? with
  | some r => r.2
  | none => ((df.getLast?).map Prod.snd).getD 0

/-- `SwingATRBreakevenV2.stoploss = -0.10` (hard floor). -/
def SATR_stoploss : ℚ := -10/100

/-- `SwingATRBreakevenV2.custom_stoploss` with the hyperopt defaults
`atr_init_mult = 1.50`, `max_init_sl = 0.035`, `breakeven_trigger = 0.015`,
`trail_trigger = 0.030`, `atr_trail_mult = 1.00`, `max_trail_sl = 0.05`.
`sl_candidates` is accumulated through successive `max`. -/
def SATR_custom_stoploss (info : Option (List (ℤ × ℚ))) (trade : Trade)
    (current_time : ℤ) (current_rate : ℚ) (current_profit : Option ℚ) : ℚ :=
  match info with
  | none => SATR_stoploss
  | some info_df =>
    if info_df.isEmpty then SATR_stoploss
    else
      let atr_at_open := SATR_getAtr info_df trade.open_date
      let atr_now := SATR_getAtr info_df current_time
      let init_sl_frac := atr_at_open / max trade.open_rate (1/1000000000) * (3/2)
      let init_sl_frac := min init_sl_frac (35/1000)
      let sl := -init_sl_frac
      let sl :=
        match current_profit with
        | some p =>
          if (15/1000) ≤ p then
            let be_price := trade.open_rate * (1 + trade.fee_open + trade.fee_close)
            max sl (be_price / max current_rate (1/1000000000) - 1)
          else sl
        | none => sl
      let sl :=
        match current_profit with
        | some p =>
          if (3/100) ≤ p then
            let trail_frac := atr_now / max current_rate (1/1000000000) * 1
            max sl (-(min (max (4/1000) trail_frac) (5/100)))
          else sl
        | none => sl
      max sl SATR_stoploss

/-- `Sma20RsiBbAtrStrategy.stoploss = -0.10` (hard floor). -/
def Sma20_stoploss : ℚ := -10/100

/-- `Sma20RsiBbAtrStrategy.custom_stoploss`.  `lastRow` models
`dp.get_analyzed_dataframe(...)` followed by `df.iloc[-1]`: `none` is an
empty dataframe (so `iloc[-1]` raises `IndexError`), otherwise the pair
of the row's `close` and its `atr` (`none` = missing/NaN, coerced to 0).
`current_rate` is accepted but never read, exactly as in the source. -/
def Sma20_custom_stoploss (lastRow : Option (ℚ × Option ℚ))
    (current_rate : ℚ) (current_profit : Option ℚ) : Except PyExc ℚ :=
  match lastRow with
  | none => Except.error PyExc.indexError
  | some (close, atrOpt) =>
    let atr_val := atrOpt.getD 0
    let atr_pct := if 0 < close then atr_val / close else 0
    let wild := (2/100) ≤ atr_pct
    let atr_based :=
      if wild then -(min (15/100) (max (12/1000) (atr_pct * (22/10))))
      else -(min (8/100) (max (8/1000) (atr_pct * (12/10))))
    let sl := atr_based
    let sl :=
      match current_profit with
      | some p =>
        if (4/100) < p then
          max atr_based (-(max (15/1000) (min (5/100) (p * (1/2)))))
        else sl
      | none => sl
    Except.ok (max sl Sma20_stoploss)

/-- `CustomStoplossWithPSAR.stoploss = -0.08` (hard floor). -/
def PSAR_stoploss : ℚ := -8/100

/-- `CustomStoplossWithPSAR.custom_stoploss`.  `has_pair_info` models the
guard `self.custom_info and pair in self.custom_info and trade and self.dp`;
`lastRow` models `df.iloc[-1]` of the analyzed dataframe (`none` = empty
dataframe ⇒ `IndexError`) and carries `last.get('sar', None)`.  `result`
starts at `1` ("off unless computed") and is replaced by the clamped
PSAR-relative ratio only when the SAR is present and `current_rate > 0`. -/
def PSAR_custom_stoploss (has_pair_info : Bool) (lastRow : Option (Option ℚ))
    (current_rate : ℚ) : Except PyExc ℚ :=
  if has_pair_info then
    match lastRow with
    | none => Except.error PyExc.indexError
    | some sarOpt =>
      match sarOpt with
      | some sar =>
        if 0 < current_rate then
          let rel := (current_rate - sar) / current_rate - 1
          Except.ok (max (min rel (-2/100)) (-8/100))
        else Except.ok 1
      | none => Except.ok 1
  else Except.ok 1

/-- Entry tags written by `CustomStoplossWithPSAR.populate_entry_trend`. -/
inductive EntryTag where
  | psar_bull_flip_strict
  | rsi_rebound_35
deriving DecidableEq

/-- Per-row entry-signal cells of a dataframe row; `none` models a cell the
masked assignments have not written (the columns are created on first
assignment in this strategy, not pre-initialised). -/
structure EntrySignal where
  enter_long : Option ℕ
  enter_tag : Option EntryTag
deriving DecidableEq

/-- One row of the indicator-augmented dataframe of
`CustomStoplossWithPSAR`, with the previous row's values inlined as the
`Prev`-suffixed fields (pandas `shift(1)`). -/
structure PsarRow where
  close : ℚ
  closePrev : ℚ
  sar : ℚ
  sarPrev : ℚ
  ema20 : ℚ
  ema50 : ℚ
  ema200 : ℚ
  rsi : ℚ
  rsiPrev : ℚ
  macdhist : ℚ
  atrp : ℚ
  vol_ma20 : ℚ

/-- `strong_up` mask of `CustomStoplossWithPSAR.populate_entry_trend`. -/
def strong_up (r : PsarRow) : Bool :=
  decide (r.ema20 > r.ema50) && decide (r.ema50 > r.ema200) && decide (r.close > r.ema50)

/-- `mom_ok` mask (RSI > 45 and MACD histogram > 0). -/
def mom_ok (r : PsarRow) : Bool :=
  decide (r.rsi > 45) && decide (r.macdhist > 0)

/-- `vol_ok` mask (ATR% regime window and positive volume mean). -/
def vol_ok (r : PsarRow) : Bool :=
  decide (r.atrp > 5/1000) && decide (r.atrp < 3/100) && decide (r.vol_ma20 > 0)

/-- `psar_bull_flip` mask (SAR flips from at-or-above to below price). -/
def psar_bull_flip (r : PsarRow) : Bool :=
  decide (r.sar < r.close) && decide (r.sarPrev ≥ r.closePrev)

/-- `cond_psar_strict = psar_bull_flip & strong_up & mom_ok & vol_ok`. -/
def cond_psar_strict (r : PsarRow) : Bool :=
  psar_bull_flip r && strong_up r && mom_ok r && vol_ok r

/-- `rsi_rebound` mask (RSI crosses up through 35 with price above EMA20). -/
def rsi_rebound (r : PsarRow) : Bool :=
  decide (r.rsi > 35) && decide (r.rsiPrev ≤ 35) && decide (r.close > r.ema20)

/-- `cond_rsi = rsi_rebound & strong_up & vol_ok`. -/
def cond_rsi (r : PsarRow) : Bool :=
  rsi_rebound r && strong_up r && vol_ok r

/-- The four sequential masked assignments of
`CustomStoplossWithPSAR.populate_entry_trend`, restricted to one row:
`loc[cond_psar_strict, 'enter_long'] = 1`, then its tag, then
`loc[cond_rsi, 'enter_long'] = 1`, then its tag — later assignments
overwrite earlier ones on rows where both masks hold. -/
def PSAR_populate_entry_row (r : PsarRow) (init : EntrySignal) : EntrySignal :=
  let s := init
  let s := if cond_psar_strict r then { s with enter_long := some 1 } else s
  let s := if cond_psar_strict r then { s with enter_tag := some EntryTag.psar_bull_flip_strict } else s
  let s := if cond_rsi r then { s with enter_long := some 1 } else s
  let s := if cond_rsi r then { s with enter_tag := some EntryTag.rsi_rebound_35 } else s
  s

/-- `true` exactly when a modelled call raised. -/
def exceptIsError : Except PyExc ℚ → Bool
  | Except.error _ => true
  | Except.ok _ => false

/-- A profit-gated tightening stage at the stop-price level: once
`current_rate` reaches `trigger`, the candidate stop price `cand` joins
the running `max`; below the trigger the previous stop price stands.
Used to state the closed stop-price form of the staged engines. -/
def stage_gate (trigger cand prev c : ℚ) : ℚ :=
  if trigger ≤ c then max prev cand else prev

theorem lastMem {α : Type} {l : List α} {a : α} (h : l.getLast? = some a) : a ∈ l := by
  have h' : a ∈ l.getLast? := Option.mem_def.mpr h
  obtain ⟨hne, hx⟩ := List.mem_getLast?_eq_getLast h'
  subst hx
  exact l.getLast_mem hne

theorem stage_gate_mono {trigger cand prev₁ prev₂ c₁ c₂ : ℚ} (hc : c₁ ≤ c₂)
    (hp : prev₁ ≤ prev₂) : stage_gate trigger cand prev₁ c₁ ≤ stage_gate trigger cand prev₂ c₂ := by
  unfold stage_gate
  split_ifs with h1 h2
  · exact max_le_max hp le_rfl
  · exact absurd (h1.trans hc) h2
  · exact hp.trans (le_max_left prev₂ cand)
  · exact hp

theorem stage_gate_le {trigger cand prev c : ℚ} :
    prev ≤ stage_gate trigger cand prev c := by
  unfold stage_gate
  split_ifs
  · exact le_max_left prev cand
  · exact le_rfl

theorem stage_gate_cand_le {trigger cand prev c : ℚ} (h : trigger ≤ c) :
    cand ≤ stage_gate trigger cand prev c := by
  unfold stage_gate
  rw [if_pos h]
  exact le_max_right prev cand

theorem mul_one_add_max (c x y : ℚ) (hc : 0 ≤ c) :
    c * (1 + max x y) = max (c * (1 + x)) (c * (1 + y)) := by
  rw [mul_add c 1 (max x y), mul_max_of_nonneg x y hc, ← max_add_add_left, ← mul_add, ← mul_add]

theorem mul_one_add_div_sub (c x : ℚ) (hc : c ≠ 0) : c * (1 + (x / c - 1)) = x := by
  field_simp

theorem FRRL_floor_le (hist : Option (List (ℤ × ℚ))) (t : Trade) (c : ℚ) :
    FRRL_stoploss ≤ FRRL_custom_stoploss hist t c := by
  unfold FRRL_custom_stoploss
  cases lookup_open_sl_abs hist t.open_date with
  | none => exact le_rfl
  | some v =>
    dsimp only
    split_ifs <;> first | exact le_rfl | exact le_max_right _ _

theorem SwingEMA_floor_le (rr : ℚ) (hist : Option (List (ℤ × ℚ))) (t : Trade) (c : ℚ) :
    SwingEMA_stoploss ≤ SwingEMA_custom_stoploss rr hist t c := by
  unfold SwingEMA_custom_stoploss
  cases lookup_init_sl hist t.open_date with
  | none => exact le_rfl
  | some v =>
    dsimp only
    split_ifs <;> first | exact le_rfl | exact le_max_right _ _

theorem FRRMM_floor_le (rr beR floor : ℚ) (hist : Option (List (ℤ × ℚ))) (t : Trade) (c : ℚ) :
    floor ≤ FRRMM_custom_stoploss rr beR floor hist t c := by
  unfold FRRMM_custom_stoploss
  cases lookup_open_sl_abs hist t.open_date with
  | none => exact le_rfl
  | some v =>
    dsimp only
    split_ifs <;> first | exact le_rfl | exact le_max_right _ _

theorem EBR_floor_le (rr : ℚ) (hist : Option (List (ℤ × ℚ))) (t : Trade) (c : ℚ) :
    EBR_stoploss ≤ EBR_custom_stoploss rr hist t c := by
  unfold EBR_custom_stoploss
  cases lookup_init_sl hist t.open_date with
  | none => exact le_rfl
  | some v =>
    dsimp only
    split_ifs <;> first | exact le_rfl | exact le_max_right _ _

theorem SHTS_floor_le (cache : Option (List (ℤ × ℚ))) (t : Trade) (ct : ℤ) (c : ℚ)
    (p : Option ℚ) : SHTS_stoploss ≤ SHTS_custom_stoploss cache t ct c p := by
  unfold SHTS_custom_stoploss
  exact le_max_right _ _

theorem SATR_floor_le (info : Option (List (ℤ × ℚ))) (t : Trade) (ct : ℤ) (c : ℚ)
    (p : Option ℚ) : SATR_stoploss ≤ SATR_custom_stoploss info t ct c p := by
  unfold SATR_custom_stoploss
  cases info with
  | none => exact le_rfl
  | some df =>
    dsimp only
    split_ifs
    · exact le_rfl
    · exact le_max_right _ _

theorem Sma20_floor_le (lastRow : Option (ℚ × Option ℚ)) (c : ℚ) (p : Option ℚ) (r : ℚ)
    (h : Sma20_custom_stoploss lastRow c p = Except.ok r) : Sma20_stoploss ≤ r := by
  cases lastRow with
  | none => simp [Sma20_custom_stoploss] at h
  | some row =>
    obtain ⟨cl, a⟩ := row
    unfold Sma20_custom_stoploss at h
    simp only [Except.ok.injEq] at h
    subst h
    exact le_max_right _ _

theorem PSAR_floor_le (b : Bool) (lastRow : Option (Option ℚ)) (c : ℚ) (r : ℚ)
    (h : PSAR_custom_stoploss b lastRow c = Except.ok r) : PSAR_stoploss ≤ r := by
  unfold PSAR_custom_stoploss at h
  cases b with
  | false =>
    simp only [Bool.false_eq_true, if_false, Except.ok.injEq] at h
    subst h
    norm_num [PSAR_stoploss]
  | true =>
    simp only [if_true] at h
    cases lastRow with
    | none => simp at h
    | some sarOpt =>
      cases sarOpt with
      | none =>
        simp only [Except.ok.injEq] at h
        subst h
        norm_num [PSAR_stoploss]
      | some sar =>
        by_cases hc : 0 < c
        · simp only [hc, if_true, Except.ok.injEq] at h
          subst h
          exact le_max_right _ _
        · simp only [hc, if_false, Except.ok.injEq] at h
          subst h
          norm_num [PSAR_stoploss]

/-- Claim C1: floor invariant — for every strategy's `custom_stoploss` and
all valid inputs, the returned stop-loss ratio is never numerically less
than the strategy's configured hard-floor `stoploss` attribute (for the
two dataframe-reading strategies, every value they return, i.e. every
`Except.ok` result, satisfies the bound). -/
theorem c1_floor_invariant :
    (∀ hist t c, FRRL_stoploss ≤ FRRL_custom_stoploss hist t c) ∧
    (∀ rr hist t c, SwingEMA_stoploss ≤ SwingEMA_custom_stoploss rr hist t c) ∧
    (∀ rr beR floor hist t c, floor ≤ FRRMM_custom_stoploss rr beR floor hist t c) ∧
    (∀ rr hist t c, EBR_stoploss ≤ EBR_custom_stoploss rr hist t c) ∧
    (∀ cache t ct c p, SHTS_stoploss ≤ SHTS_custom_stoploss cache t ct c p) ∧
    (∀ info t ct c p, SATR_stoploss ≤ SATR_custom_stoploss info t ct c p) ∧
    (∀ lastRow c p r, Sma20_custom_stoploss lastRow c p = Except.ok r → Sma20_stoploss ≤ r) ∧
    (∀ b lastRow c r, PSAR_custom_stoploss b lastRow c = Except.ok r → PSAR_stoploss ≤ r) :=
  ⟨FRRL_floor_le, SwingEMA_floor_le, FRRMM_floor_le, EBR_floor_le,
   SHTS_floor_le, SATR_floor_le, Sma20_floor_le, PSAR_floor_le⟩

/-- Witness for C1 at concrete inputs, discharging the `Except.ok`
hypotheses of the dataframe-reading conjuncts by evaluation. -/
theorem c1_floor_invariant_witness :
    FRRL_stoploss ≤ FRRL_custom_stoploss (some [((0:ℤ), (98:ℚ))]) ⟨100, 0, 1/1000, 1/1000⟩ 101 ∧
    Sma20_stoploss ≤ (-8/1000 : ℚ) ∧ PSAR_stoploss ≤ (-8/100 : ℚ) :=
  ⟨c1_floor_invariant.1 (some [((0:ℤ), (98:ℚ))]) ⟨100, 0, 1/1000, 1/1000⟩ 101,
   c1_floor_invariant.2.2.2.2.2.2.1 (some (1, some (6/1000))) 5 none (-8/1000) (by
     norm_num [Sma20_custom_stoploss, Sma20_stoploss]),
   c1_floor_invariant.2.2.2.2.2.2.2 true (some (some 90)) 100 (-8/100) (by
     norm_num [PSAR_custom_stoploss])⟩

/-- Claim C8: end-to-end staged computation for `SwingEMA_RSI_ATR` with
entry price 100, entry-time stop reference 98 (risk 2), `rr_ratio = 2.0`
and fees 0.001 each: at rate 101 (below the 0.7R breakeven trigger 101.4)
the result is `98/101 - 1`; at rate 102 (above breakeven, below the
target 104) it is `100 × 1.002 / 102 - 1`; at rate 105 (above the target)
it trails the target line, `104/105 - 1`. -/
theorem c8_end_to_end :
    SwingEMA_custom_stoploss 2 (some [((0:ℤ), (98:ℚ))]) ⟨100, 0, 1/1000, 1/1000⟩ 101
        = 98/101 - 1 ∧
    SwingEMA_custom_stoploss 2 (some [((0:ℤ), (98:ℚ))]) ⟨100, 0, 1/1000, 1/1000⟩ 102
        = 100 * (1 + 1/1000 + 1/1000) / 102 - 1 ∧
    SwingEMA_custom_stoploss 2 (some [((0:ℤ), (98:ℚ))]) ⟨100, 0, 1/1000, 1/1000⟩ 105
        = 104/105 - 1 := by
  refine ⟨?_, ?_, ?_⟩ <;>
    norm_num [SwingEMA_custom_stoploss, lookup_init_sl, SwingEMA_stoploss]

/-- Claim C9: in `CustomStoplossWithPSAR.populate_entry_trend`, on every
row where both the strict PSAR bull-flip condition and the RSI-rebound
condition hold, `enter_long` is 1 and the final `enter_tag` is
`rsi_rebound_35` — the later sequential assignment overwrites the earlier
tag without changing the flag. -/
theorem c9_last_tag_wins (r : PsarRow) (init : EntrySignal)
    (h1 : cond_psar_strict r = true) (h2 : cond_rsi r = true) :
    PSAR_populate_entry_row r init = ⟨some 1, some EntryTag.rsi_rebound_35⟩ := by
  simp [PSAR_populate_entry_row, h1, h2]

/-- Witness for C9: a concrete row satisfying both entry conditions. -/
theorem c9_last_tag_wins_witness :
    PSAR_populate_entry_row ⟨100, 100, 90, 100, 95, 94, 93, 50, 30, 1, 1/100, 1⟩ ⟨none, none⟩
      = ⟨some 1, some EntryTag.rsi_rebound_35⟩ :=
  c9_last_tag_wins _ _
    (by norm_num [cond_psar_strict, psar_bull_flip, strong_up, mom_ok, vol_ok])
    (by norm_num [cond_rsi, rsi_rebound, strong_up, vol_ok])

/-- Claim C10: every value `CustomStoplossWithPSAR.custom_stoploss`
returns is either exactly 1 (stop disabled) or lies in the clamp interval
[-0.08, -0.02]; the unclamped PSAR-derived ratio never escapes the clamp. -/
theorem c10_psar_range (b : Bool) (lastRow : Option (Option ℚ)) (c r : ℚ)
    (h : PSAR_custom_stoploss b lastRow c = Except.ok r) :
    r = 1 ∨ ((-8/100 : ℚ) ≤ r ∧ r ≤ (-2/100 : ℚ)) := by
  unfold PSAR_custom_stoploss at h
  cases b with
  | false =>
    simp only [Bool.false_eq_true, if_false, Except.ok.injEq] at h
    exact Or.inl h.symm
  | true =>
    simp only [if_true] at h
    cases lastRow with
    | none => simp at h
    | some sarOpt =>
      cases sarOpt with
      | none =>
        simp only [Except.ok.injEq] at h
        exact Or.inl h.symm
      | some sar =>
        by_cases hc : 0 < c
        · simp only [hc, if_true, Except.ok.injEq] at h
          subst h
          exact Or.inr ⟨le_max_right _ _, max_le (min_le_right _ _) (by norm_num)⟩
        · simp only [hc, if_false, Except.ok.injEq] at h
          exact Or.inl h.symm

/-- Witness for C10 at a concrete input whose SAR-derived ratio clamps to
the lower bound. -/
theorem c10_psar_range_witness :
    (-8/100 : ℚ) = 1 ∨ ((-8/100 : ℚ) ≤ (-8/100 : ℚ) ∧ (-8/100 : ℚ) ≤ (-2/100 : ℚ)) :=
  c10_psar_range true (some (some 90)) 100 (-8/100) (by norm_num [PSAR_custom_stoploss])

/-- Counterexample for C6: with an empty analyzed dataframe,
`Sma20RsiBbAtrStrategy.custom_stoploss` (`df.iloc[-1]`, its cited lines)
and `CustomStoplossWithPSAR.custom_stoploss` (when its cache holds the
pair) propagate an `IndexError` to the caller instead of degrading to the
hard floor. -/
theorem c6_counterexample :
    Sma20_custom_stoploss none 5 none = Except.error PyExc.indexError ∧
    PSAR_custom_stoploss true none 5 = Except.error PyExc.indexError :=
  ⟨rfl, rfl⟩

/-- Claim C6 (amended): the six lookup-store strategies are total by
construction; the two dataframe-reading ones raise exactly when the
analyzed dataframe is empty — `Sma20RsiBbAtrStrategy` always dereferences
`iloc[-1]`, `CustomStoplossWithPSAR` only when its cache holds the pair;
every other input yields a defined value. -/
theorem c6_total_amended :
    (∀ lastRow c p, exceptIsError (Sma20_custom_stoploss lastRow c p) = lastRow.isNone) ∧
    (∀ b lastRow c, exceptIsError (PSAR_custom_stoploss b lastRow c) = (b && lastRow.isNone)) := by
  constructor
  · intro lastRow c p
    cases lastRow with
    | none => rfl
    | some row => obtain ⟨cl, a⟩ := row; rfl
  · intro b lastRow c
    cases b with
    | false => rfl
    | true =>
      cases lastRow with
      | none => rfl
      | some sarOpt =>
        cases sarOpt with
        | none => rfl
        | some sar =>
          by_cases hc : 0 < c <;>
            simp [PSAR_custom_stoploss, exceptIsError, hc]

/-- Counterexample for C7: `Sma20RsiBbAtrStrategy.custom_stoploss` (one of
the claim's cited sources) never inspects `current_rate`; with
`current_rate = 0` and a last candle of close 1, ATR 0.006 it returns
-0.008, not the hard floor -0.10. -/
theorem c7_counterexample :
    Sma20_custom_stoploss (some (1, some (6/1000))) 0 none = Except.ok (-8/1000) ∧
    ((-8/1000 : ℚ) ≠ Sma20_stoploss) := by
  constructor
  · norm_num [Sma20_custom_stoploss, Sma20_stoploss]
  · norm_num [Sma20_stoploss]

/-- Claim C7 (amended): the guard `current_rate ≤ 0 ⇒ return the hard
floor` holds for the four R:R lookup strategies
(`FixedRiskRewardLossImproved`, `SwingEMA_RSI_ATR`, `FixedRR_MultiMode`,
`EdgeBreakRetestV1`); the remaining strategies have no such guard. -/
theorem c7_guard_amended :
    (∀ hist t c, c ≤ 0 → FRRL_custom_stoploss hist t c = FRRL_stoploss) ∧
    (∀ rr hist t c, c ≤ 0 → SwingEMA_custom_stoploss rr hist t c = SwingEMA_stoploss) ∧
    (∀ rr beR floor hist t c, c ≤ 0 →
      FRRMM_custom_stoploss rr beR floor hist t c = floor) ∧
    (∀ rr hist t c, c ≤ 0 → EBR_custom_stoploss rr hist t c = EBR_stoploss) := by
  refine ⟨?_, ?_, ?_, ?_⟩
  · intro hist t c hc
    unfold FRRL_custom_stoploss
    cases lookup_open_sl_abs hist t.open_date with
    | none => rfl
    | some v => simp [hc]
  · intro rr hist t c hc
    unfold SwingEMA_custom_stoploss
    cases lookup_init_sl hist t.open_date with
    | none => rfl
    | some v => simp [hc]
  · intro rr beR floor hist t c hc
    unfold FRRMM_custom_stoploss
    cases lookup_open_sl_abs hist t.open_date with
    | none => rfl
    | some v => simp [hc]
  · intro rr hist t c hc
    unfold EBR_custom_stoploss
    cases lookup_init_sl hist t.open_date with
    | none => rfl
    | some v => simp [hc]

/-- Witness for C7 (amended) at a concrete zero rate. -/
theorem c7_guard_amended_witness :
    FRRL_custom_stoploss (some [((0:ℤ), (98:ℚ))]) ⟨100, 0, 1/1000, 1/1000⟩ 0 = FRRL_stoploss :=
  c7_guard_amended.1 (some [((0:ℤ), (98:ℚ))]) ⟨100, 0, 1/1000, 1/1000⟩ 0 le_rfl

/-- Counterexample for C4: on a pair absent from its cache,
`CustomStoplossWithPSAR.custom_stoploss` returns 1 ("off"), not the
configured hard floor -0.08, refuting "returns exactly the configured
hard-floor ratio for every strategy". -/
theorem c4_counterexample :
    PSAR_custom_stoploss false none 100 = Except.ok 1 ∧ (1 : ℚ) ≠ PSAR_stoploss :=
  ⟨rfl, by norm_num [PSAR_stoploss]⟩

/-- Claim C4 (amended): with an absent or empty reference store the four
R:R lookup strategies and `SwingATRBreakevenV2` return exactly the hard
floor for every remaining input; `SwingHighToSkyV2` does so only while no
profit-gated stage is triggered (`current_profit` absent or below the
0.015 breakeven trigger — above it the fee-aware breakeven candidate can
exceed the floor); `CustomStoplossWithPSAR` instead returns 1. -/
theorem c4_missing_ref_amended :
    (∀ hist t c, (hist = none ∨ hist = some []) →
      FRRL_custom_stoploss hist t c = FRRL_stoploss) ∧
    (∀ rr hist t c, (hist = none ∨ hist = some []) →
      SwingEMA_custom_stoploss rr hist t c = SwingEMA_stoploss) ∧
    (∀ rr beR floor hist t c, (hist = none ∨ hist = some []) →
      FRRMM_custom_stoploss rr beR floor hist t c = floor) ∧
    (∀ rr hist t c, (hist = none ∨ hist = some []) →
      EBR_custom_stoploss rr hist t c = EBR_stoploss) ∧
    (∀ info t ct c p, (info = none ∨ info = some []) →
      SATR_custom_stoploss info t ct c p = SATR_stoploss) ∧
    (∀ cache t ct c p, (cache = none ∨ cache = some []) →
      (p = none ∨ ∃ q, p = some q ∧ q < 15/1000) →
      SHTS_custom_stoploss cache t ct c p = SHTS_stoploss) ∧
    (∀ lastRow c, PSAR_custom_stoploss false lastRow c = Except.ok 1) := by
  refine ⟨?_, ?_, ?_, ?_, ?_, ?_, ?_⟩
  · intro hist t c h
    rcases h with rfl | rfl <;> rfl
  · intro rr hist t c h
    rcases h with rfl | rfl <;> rfl
  · intro rr beR floor hist t c h
    rcases h with rfl | rfl <;> rfl
  · intro rr hist t c h
    rcases h with rfl | rfl <;> rfl
  · intro info t ct c p h
    rcases h with rfl | rfl <;> rfl
  · intro cache t ct c p h hp
    have h0 : atr_at cache t.open_date true = 0 := by rcases h with rfl | rfl <;> rfl
    have h0' : atr_at cache ct true = 0 := by rcases h with rfl | rfl <;> rfl
    unfold SHTS_custom_stoploss
    rw [h0, h0']
    rcases hp with rfl | ⟨q, rfl, hq⟩
    · simp
    · have hbe : ¬ (15/1000 : ℚ) ≤ q := not_le.mpr hq
      have htr : ¬ (35/1000 : ℚ) ≤ q := not_le.mpr (hq.trans (by norm_num))
      simp [hbe, htr]
  · intro lastRow c
    rfl

/-- Witness for C4 (amended) on a concrete empty store with small profit. -/
theorem c4_missing_ref_amended_witness :
    SHTS_custom_stoploss (some []) ⟨100, 0, 1/1000, 1/1000⟩ 7 101 (some (1/100))
      = SHTS_stoploss :=
  c4_missing_ref_amended.2.2.2.2.2.1 (some []) ⟨100, 0, 1/1000, 1/1000⟩ 7 101
    (some (1/100)) (Or.inr rfl) (Or.inr ⟨1/100, rfl, by norm_num⟩)

/-- Counterexample for C5: `SwingHighToSkyV2._atr_at` queried at time 5,
before the store's only entry (recorded at time 10), does not report
absence — it returns that entry's value 7, recorded at a timestamp
strictly greater than the query timestamp. -/
theorem c5_counterexample :
    atr_at (some [((10:ℤ), (7:ℚ))]) 5 true = 7 ∧ (5:ℤ) < 10 := by
  constructor
  · rfl
  · norm_num

/-- Claim C5 (amended): `_lookup_open_sl_abs` and `_lookup_init_sl`
satisfy as-of semantics — any returned value was recorded at a timestamp
≤ the query time, and a query preceding every entry yields `None`;
`_atr_at`, however, falls back on such a query to the *last* stored value
(recorded after the query time) whenever the store is non-empty. -/
theorem c5_asof_amended :
    (∀ (l : List (ℤ × ℚ)) t v, lookup_open_sl_abs (some l) t = some v →
      ∃ ts, (ts, v) ∈ l ∧ ts ≤ t) ∧
    (∀ (l : List (ℤ × ℚ)) t, (∀ e ∈ l, t < e.1) → lookup_open_sl_abs (some l) t = none) ∧
    (∀ (l : List (ℤ × ℚ)) t v, lookup_init_sl (some l) t = some v →
      ∃ ts, (ts, v) ∈ l ∧ ts ≤ t) ∧
    (∀ (l : List (ℤ × ℚ)) t, (∀ e ∈ l, t < e.1) → lookup_init_sl (some l) t = none) ∧
    (∀ (l : List (ℤ × ℚ)) t fb, (∀ e ∈ l, t < e.1) →
      atr_at (some l) t fb = if fb then ((l.getLast?).map Prod.snd).getD 0 else 0) := by
  have hmem : ∀ (l : List (ℤ × ℚ)) (t : ℤ) (v : ℚ),
      (match (l.filter (fun r => r.1 ≤ t)).getLast? with
        | none => (none : Option ℚ)
        | some r => some r.2) = some v → ∃ ts, (ts, v) ∈ l ∧ ts ≤ t := by
    intro l t v h
    cases hg : (l.filter (fun r => r.1 ≤ t)).getLast? with
    | none => rw [hg] at h; exact absurd h (by simp)
    | some r =>
      rw [hg] at h
      have hv : r.2 = v := by simpa using h
      have hmem' := lastMem hg
      rw [List.mem_filter] at hmem'
      obtain ⟨hm, hle⟩ := hmem'
      exact ⟨r.1, by rw [← hv]; simpa using hm, by simpa using hle⟩
  have hfil : ∀ (l : List (ℤ × ℚ)) (t : ℤ), (∀ e ∈ l, t < e.1) →
      l.filter (fun r => r.1 ≤ t) = [] := by
    intro l t h
    rw [List.filter_eq_nil_iff]
    intro a ha
    simpa using (h a ha).not_le
  refine ⟨?_, ?_, ?_, ?_, ?_⟩
  · intro l t v h
    unfold lookup_open_sl_abs at h
    by_cases he : l.isEmpty
    · simp [he] at h
    · simp only [he, if_false] at h
      exact hmem l t v h
  · intro l t h
    unfold lookup_open_sl_abs
    simp [hfil l t h]
  · intro l t v h
    unfold lookup_init_sl at h
    by_cases he : l.isEmpty
    · simp [he] at h
    · simp only [he, if_false] at h
      exact hmem l t v h
  · intro l t h
    unfold lookup_init_sl
    simp [hfil l t h]
  · intro l t fb h
    unfold atr_at
    by_cases he : l.isEmpty
    · have : l = [] := List.isEmpty_iff.mp he
      subst this
      simp
    · simp [he, hfil l t h]

/-- Witness for C5 (amended): the as-of lookup on a two-entry store. -/
theorem c5_asof_amended_witness :
    ∃ ts, (ts, (98:ℚ)) ∈ [((0:ℤ), (98:ℚ)), ((10:ℤ), (99:ℚ))] ∧ ts ≤ 5 :=
  c5_asof_amended.1 [((0:ℤ), (98:ℚ)), ((10:ℤ), (99:ℚ))] 5 98 (by
    norm_num [lookup_open_sl_abs])

theorem mul_one_add_gate {c prevRat prevPrice : ℚ} (trig x : ℚ) (hc : 0 < c)
    (hprev : c * (1 + prevRat) = prevPrice) :
    c * (1 + (if trig ≤ c then max prevRat (x / c - 1) else prevRat)) =
      stage_gate trig x prevPrice c := by
  unfold stage_gate
  split_ifs with h
  · rw [mul_one_add_max _ _ _ hc.le, hprev, mul_one_add_div_sub _ _ hc.ne']
  · exact hprev

theorem FRRL_eq_floor_of_none (hist : Option (List (ℤ × ℚ))) (t : Trade) (c : ℚ)
    (hl : lookup_open_sl_abs hist t.open_date = none) :
    FRRL_custom_stoploss hist t c = FRRL_stoploss := by
  unfold FRRL_custom_stoploss
  rw [hl]

theorem FRRL_eq_floor_of_riskneg (hist : Option (List (ℤ × ℚ))) (t : Trade) (c : ℚ)
    {v : ℚ} (hl : lookup_open_sl_abs hist t.open_date = some v)
    (hr : t.open_rate - v ≤ 0) :
    FRRL_custom_stoploss hist t c = FRRL_stoploss := by
  unfold FRRL_custom_stoploss
  rw [hl]
  have hm : max 0 (t.open_rate - v) = 0 := max_eq_left hr
  by_cases hc : c ≤ 0
  · simp [hc]
  · simp [hc, hm]

theorem FRRL_stopPrice_closed (hist : Option (List (ℤ × ℚ))) (t : Trade) {v c : ℚ}
    (hl : lookup_open_sl_abs hist t.open_date = some v) (hc : 0 < c)
    (hr : 0 < t.open_rate - v) :
    c * (1 + FRRL_custom_stoploss hist t c) =
      max (stage_gate (t.open_rate + 2 * (t.open_rate - v))
             (t.open_rate + 2 * (t.open_rate - v))
             (stage_gate (t.open_rate + (8/10) * (t.open_rate - v))
               (t.open_rate * (1 + t.fee_open + t.fee_close)) v c) c)
        (c * (1 + FRRL_stoploss)) := by
  have hmax : max 0 (t.open_rate - v) = t.open_rate - v := max_eq_right hr.le
  unfold FRRL_custom_stoploss
  rw [hl]
  simp only [hmax, hc.not_le, not_le.mpr hr, if_false]
  rw [mul_one_add_max _ _ _ hc.le]
  congr 1
  exact mul_one_add_gate _ _ hc (mul_one_add_gate _ _ hc (mul_one_add_div_sub _ _ hc.ne'))

theorem SwingEMA_eq_floor_of_none (rr : ℚ) (hist : Option (List (ℤ × ℚ))) (t : Trade)
    (c : ℚ) (hl : lookup_init_sl hist t.open_date = none) :
    SwingEMA_custom_stoploss rr hist t c = SwingEMA_stoploss := by
  unfold SwingEMA_custom_stoploss
  rw [hl]

theorem SwingEMA_eq_floor_of_riskneg (rr : ℚ) (hist : Option (List (ℤ × ℚ))) (t : Trade)
    (c : ℚ) {v : ℚ} (hl : lookup_init_sl hist t.open_date = some v)
    (hr : t.open_rate - v ≤ 0) :
    SwingEMA_custom_stoploss rr hist t c = SwingEMA_stoploss := by
  unfold SwingEMA_custom_stoploss
  rw [hl]
  have hm : max 0 (t.open_rate - v) = 0 := max_eq_left hr
  by_cases hc : c ≤ 0
  · simp [hc]
  · simp [hc, hm]

theorem SwingEMA_stopPrice_closed (rr : ℚ) (hist : Option (List (ℤ × ℚ))) (t : Trade)
    {v c : ℚ} (hl : lookup_init_sl hist t.open_date = some v) (hc : 0 < c)
    (hr : 0 < t.open_rate - v) :
    c * (1 + SwingEMA_custom_stoploss rr hist t c) =
      max (stage_gate (t.open_rate + rr * (t.open_rate - v))
             (t.open_rate + rr * (t.open_rate - v))
             (stage_gate (t.open_rate + (15/10) * (t.open_rate - v))
               (t.open_rate + (5/10) * (t.open_rate - v))
               (stage_gate (t.open_rate + (7/10) * (t.open_rate - v))
                 (t.open_rate * (1 + t.fee_open + t.fee_close)) v c) c) c)
        (c * (1 + SwingEMA_stoploss)) := by
  have hmax : max 0 (t.open_rate - v) = t.open_rate - v := max_eq_right hr.le
  unfold SwingEMA_custom_stoploss
  rw [hl]
  simp only [hmax, hc.not_le, not_le.mpr hr, if_false]
  rw [mul_one_add_max _ _ _ hc.le]
  congr 1
  exact mul_one_add_gate _ _ hc (mul_one_add_gate _ _ hc
    (mul_one_add_gate _ _ hc (mul_one_add_div_sub _ _ hc.ne')))

/-- Claim C2: breakeven non-loss — for a trade whose entry-time reference
lookup succeeds with positive risk, once `current_rate` reaches the
breakeven trigger price the implied stop price
`current_rate × (1 + returned ratio)` is at least
`entry_price × (1 + fee_open + fee_close)`, for both
`FixedRiskRewardLossImproved` (trigger at 0.8R) and `SwingEMA_RSI_ATR`
(trigger at 0.7R). -/
theorem c2_breakeven_non_loss :
    (∀ hist t c v, lookup_open_sl_abs hist t.open_date = some v →
      0 < t.open_rate → v < t.open_rate →
      t.open_rate + (8/10) * (t.open_rate - v) ≤ c →
      t.open_rate * (1 + t.fee_open + t.fee_close) ≤
        c * (1 + FRRL_custom_stoploss hist t c)) ∧
    (∀ rr hist t c v, lookup_init_sl hist t.open_date = some v →
      0 < t.open_rate → v < t.open_rate →
      t.open_rate + (7/10) * (t.open_rate - v) ≤ c →
      t.open_rate * (1 + t.fee_open + t.fee_close) ≤
        c * (1 + SwingEMA_custom_stoploss rr hist t c)) := by
  constructor
  · intro hist t c v hl hopen hrisk htrig
    have hr : 0 < t.open_rate - v := sub_pos.mpr hrisk
    have hc : 0 < c :=
      lt_of_lt_of_le (add_pos hopen (mul_pos (by norm_num) hr)) htrig
    rw [FRRL_stopPrice_closed hist t hl hc hr]
    exact le_max_of_le_left (le_trans (stage_gate_cand_le htrig) stage_gate_le)
  · intro rr hist t c v hl hopen hrisk htrig
    have hr : 0 < t.open_rate - v := sub_pos.mpr hrisk
    have hc : 0 < c :=
      lt_of_lt_of_le (add_pos hopen (mul_pos (by norm_num) hr)) htrig
    rw [SwingEMA_stopPrice_closed rr hist t hl hc hr]
    exact le_max_of_le_left
      (le_trans (stage_gate_cand_le htrig) (le_trans stage_gate_le stage_gate_le))

/-- Witness for C2: entry 100, reference 98, fees 0.001, rate 102 ≥ the
101.6 breakeven trigger of `FixedRiskRewardLossImproved`. -/
theorem c2_breakeven_non_loss_witness :
    (100:ℚ) * (1 + 1/1000 + 1/1000) ≤
      102 * (1 + FRRL_custom_stoploss (some [((0:ℤ), (98:ℚ))])
        ⟨100, 0, 1/1000, 1/1000⟩ 102) :=
  c2_breakeven_non_loss.1 (some [((0:ℤ), (98:ℚ))]) ⟨100, 0, 1/1000, 1/1000⟩ 102 98
    (by norm_num [lookup_open_sl_abs]) (by norm_num) (by norm_num) (by norm_num)

/-- Counterexample for C3: for `FixedRiskRewardLossImproved` with entry
100 and reference 98, raising the price from 99 to 101 (both below every
trigger) *lowers* the returned ratio from 98/99-1 to 98/101-1 — the ratio
sequence is not non-decreasing in `current_rate`. -/
theorem c3_counterexample :
    FRRL_custom_stoploss (some [((0:ℤ), (98:ℚ))]) ⟨100, 0, 1/1000, 1/1000⟩ 101 <
      FRRL_custom_stoploss (some [((0:ℤ), (98:ℚ))]) ⟨100, 0, 1/1000, 1/1000⟩ 99 := by
  norm_num [FRRL_custom_stoploss, lookup_open_sl_abs, FRRL_stoploss]

/-- Claim C3 (amended): monotonic tightening holds at the stop-price
level — for a fixed trade and store, the implied stop price
`current_rate × (1 + returned ratio)` is non-decreasing as `current_rate`
increases (each stage only joins the running `max`, never overwrites);
the ratio itself can decrease while the price rises within one stage. -/
theorem c3_stop_price_monotone :
    (∀ hist t c₁ c₂, 0 < c₁ → c₁ ≤ c₂ →
      c₁ * (1 + FRRL_custom_stoploss hist t c₁) ≤
        c₂ * (1 + FRRL_custom_stoploss hist t c₂)) ∧
    (∀ rr hist t c₁ c₂, 0 < c₁ → c₁ ≤ c₂ →
      c₁ * (1 + SwingEMA_custom_stoploss rr hist t c₁) ≤
        c₂ * (1 + SwingEMA_custom_stoploss rr hist t c₂)) := by
  constructor
  · intro hist t c₁ c₂ h1 h12
    have h2 : 0 < c₂ := h1.trans_le h12
    have hfloor : c₁ * (1 + FRRL_stoploss) ≤ c₂ * (1 + FRRL_stoploss) :=
      mul_le_mul_of_nonneg_right h12 (by norm_num [FRRL_stoploss])
    cases hl : lookup_open_sl_abs hist t.open_date with
    | none =>
      rw [FRRL_eq_floor_of_none hist t c₁ hl, FRRL_eq_floor_of_none hist t c₂ hl]
      exact hfloor
    | some v =>
      by_cases hr : 0 < t.open_rate - v
      · rw [FRRL_stopPrice_closed hist t hl h1 hr, FRRL_stopPrice_closed hist t hl h2 hr]
        exact max_le_max (stage_gate_mono h12 (stage_gate_mono h12 le_rfl)) hfloor
      · rw [FRRL_eq_floor_of_riskneg hist t c₁ hl (not_lt.mp hr),
          FRRL_eq_floor_of_riskneg hist t c₂ hl (not_lt.mp hr)]
        exact hfloor
  · intro rr hist t c₁ c₂ h1 h12
    have h2 : 0 < c₂ := h1.trans_le h12
    have hfloor : c₁ * (1 + SwingEMA_stoploss) ≤ c₂ * (1 + SwingEMA_stoploss) :=
      mul_le_mul_of_nonneg_right h12 (by norm_num [SwingEMA_stoploss])
    cases hl : lookup_init_sl hist t.open_date with
    | none =>
      rw [SwingEMA_eq_floor_of_none rr hist t c₁ hl, SwingEMA_eq_floor_of_none rr hist t c₂ hl]
      exact hfloor
    | some v =>
      by_cases hr : 0 < t.open_rate - v
      · rw [SwingEMA_stopPrice_closed rr hist t hl h1 hr,
          SwingEMA_stopPrice_closed rr hist t hl h2 hr]
        exact max_le_max
          (stage_gate_mono h12 (stage_gate_mono h12 (stage_gate_mono h12 le_rfl))) hfloor
      · rw [SwingEMA_eq_floor_of_riskneg rr hist t c₁ hl (not_lt.mp hr),
          SwingEMA_eq_floor_of_riskneg rr hist t c₂ hl (not_lt.mp hr)]
        exact hfloor

/-- Witness for C3 (amended) across the 99 → 105 move of the
counterexample's trade. -/
theorem c3_stop_price_monotone_witness :
    99 * (1 + FRRL_custom_stoploss (some [((0:ℤ), (98:ℚ))]) ⟨100, 0, 1/1000, 1/1000⟩ 99) ≤
      105 * (1 + FRRL_custom_stoploss (some [((0:ℤ), (98:ℚ))]) ⟨100, 0, 1/1000, 1/1000⟩ 105) :=
  c3_stop_price_monotone.1 (some [((0:ℤ), (98:ℚ))]) ⟨100, 0, 1/1000, 1/1000⟩ 99 105
    (by norm_num) (by norm_num)
